import Mathlib

/-!
Shallow embedding of the kantan HTTP test-harness core
(`src/request.rs`, `src/server/inner_server.rs`) and proofs about it.

Modelling conventions:
* Rust `String`/`&str` are Lean `String`; raw header bytes (incoming
  `HeaderValue`s, whose payload need not be UTF-8) are `List Nat`.
* The `Arc<Mutex<InnerServer>>` handle is modelled by passing the
  `InnerServer` value explicitly and returning the updated value; the
  lock is assumed healthy (never poisoned), so `with_this_mut` is plain
  function application.
* Rust panics (`unwrap` / `expect`) are modelled by the explicit
  `PanicOr` outcome type, distinct from recoverable `Except` errors.
* The network transport is external; `Request.send` takes the transport
  outcome (failure, or a response) as an argument.
-/

namespace Kantan

/-- Outcome of running code that may abort the process (Rust panic). -/
inductive PanicOr (α : Type) where
  | panicked (msg : String)
  | ok (a : α)
deriving Repr, DecidableEq

/-- Errors surfaced as `Result::Err` by the embedded code. `missingPair` and
`emptyName` model the `ParseError` variants of the cookie crate; `invalidHeaderValue`
models `HeaderValue::from_str` failure; `transportError` models hyper client
failure. -/
inductive KantanError where
  | missingPair
  | emptyName
  | invalidHeaderValue (s : String)
  | transportError (msg : String)
deriving Repr, DecidableEq

/-- A cookie as persisted by the jar model: only name and value round-trip
(spec §6: "only name/value are persisted into the jar model"). -/
structure RustCookie where
  name : String
  value : String
deriving Repr, DecidableEq

/-- Models `Cookie::to_string` for a name/value cookie: `name=value`. -/
def cookieToString (c : RustCookie) : String :=
  c.name ++ "=" ++ c.value

/-- The cookie jar, modelled as a list with upsert semantics. The real
`cookie::CookieJar` iterates in unspecified (hash) order; the model fixes a
deterministic iteration order. -/
abbrev CookieJar := List RustCookie

/-- Models `CookieJar::new()`. -/
def CookieJar.new : CookieJar := []

/-- Models `CookieJar::add`: a cookie with the same name replaces the old one. -/
def CookieJar.add (jar : CookieJar) (c : RustCookie) : CookieJar :=
  jar.filter (fun old => old.name ≠ c.name) ++ [c]

/-- A byte is "visible ASCII" in the sense of the http crate
(`HeaderValue::to_str` accepts exactly these bytes). -/
def isVisAscii (b : Nat) : Bool :=
  (32 ≤ b && b < 127) || b = 9

/-- Models `HeaderValue::to_str`: yields a string iff every byte is visible ASCII. -/
def headerValueToStr (bs : List Nat) : Option String :=
  if bs.all isVisAscii then some ⟨bs.map Char.ofNat⟩ else none

/-- A string is accepted by `HeaderValue::from_str` iff each char is ≥ 32,
not DEL, or is a tab. -/
def validHeaderStr (s : String) : Bool :=
  s.data.all (fun ch => (32 ≤ ch.toNat && ch.toNat ≠ 127) || ch.toNat = 9)

/-- Models `HeaderValue::from_str`: validates and keeps the string. -/
def headerValueFromStr (s : String) : Except KantanError String :=
  if validHeaderStr s then .ok s else .error (.invalidHeaderValue s)

/-- Rust `str::starts_with`, at the char level (for UTF-8 strings a char
sequence is a byte-sequence exactly when the chars are). -/
def strStartsWith (s p : String) : Bool :=
  p.data.isPrefixOf s.data

/-- Rust `str::trim` (`String.trim` does not evaluate in the kernel, so the
model works on the char list). -/
def trimChars (l : List Char) : List Char :=
  ((l.dropWhile Char.isWhitespace).reverse.dropWhile Char.isWhitespace).reverse

/-- Models `Cookie::parse` (cookie crate): take the part before the first `;`,
split it at the first `=` (no `=` → `MissingPair`), trim both sides
(name empty → `EmptyName`). Attributes after `;` are dropped by the jar
model (only name/value persist; value dequoting is not modelled). -/
def cookieParse (s : String) : Except KantanError RustCookie :=
  let pair := s.data.takeWhile (fun c => c ≠ ';')
  let n := pair.takeWhile (fun c => c ≠ '=')
  if n.length = pair.length then .error .missingPair
  else
    let nt := trimChars n
    let v := trimChars (pair.drop (n.length + 1))
    if nt.isEmpty then .error .emptyName
    else .ok ⟨String.mk nt, String.mk v⟩

/-- The byte content of an ASCII string, for building raw header values. -/
def strToBytes (s : String) : List Nat :=
  s.data.map Char.toNat

/-- Models `InnerServer` (src/server/inner_server.rs): the shared server state.
The background serving task handle is external and omitted. -/
structure InnerServer where
  server_address : String
  cookies : CookieJar
  save_cookies : Bool
  default_content_type : Option String
deriving Repr, DecidableEq

/-- Models `RequestConfig` as used by `Request::new` / `test_request_config`. -/
structure RequestConfig where
  content_type : Option String
  save_cookies : Bool
deriving Repr, DecidableEq

/-- Models `RequestDetails`: method and path (method modelled as a string). -/
structure RequestDetails where
  method : String
  path : String
deriving Repr, DecidableEq

/-- Models `build_request_path` (src/request.rs lines 262-272), verbatim. -/
def build_request_path (root_path : String) (sub_path : String) : String :=
  if sub_path = "" then
    "http://" ++ root_path
  else if strStartsWith sub_path "/" then
    "http://" ++ root_path ++ sub_path
  else
    "http://" ++ root_path ++ "/" ++ sub_path

/-- Models `Request` (src/request.rs): the deferred request. The
`inner_test_server` handle is modelled by explicit state passing, and the
body by its raw bytes. -/
structure Request where
  details : RequestDetails
  full_request_path : String
  body : Option (List Nat)
  headers : List (String × String)
  cookies : CookieJar
  content_type : Option String
  is_saving_cookies : Bool
deriving Repr, DecidableEq

/-- Models `Request::new` (src/request.rs lines 86-115): snapshot the server
address and jar under the lock; defaults come from the config. The lock is
assumed healthy, so the `Result` wrapper always succeeds and is omitted. -/
def Request.new (server : InnerServer) (config : RequestConfig)
    (details : RequestDetails) : Request :=
  { details := details
    full_request_path := build_request_path server.server_address details.path
    body := none
    headers := []
    cookies := server.cookies
    content_type := config.content_type
    is_saving_cookies := config.save_cookies }

/-- Models `Request::do_save_cookies`. -/
def Request.do_save_cookies (req : Request) : Request :=
  { req with is_saving_cookies := true }

/-- Models `Request::do_not_save_cookies`. -/
def Request.do_not_save_cookies (req : Request) : Request :=
  { req with is_saving_cookies := false }

/-- Models `Request::clear_cookies` (src/request.rs lines 135-138). -/
def Request.clear_cookies (req : Request) : Request :=
  { req with cookies := CookieJar.new }

/-- Models `Request::add_cookie` (src/request.rs lines 141-144). -/
def Request.add_cookie (req : Request) (c : RustCookie) : Request :=
  { req with cookies := req.cookies.add c }

/-- The `JSON_CONTENT_TYPE` constant. -/
def JSON_CONTENT_TYPE : String := "application/json"

/-- The `TEXT_CONTENT_TYPE` constant. -/
def TEXT_CONTENT_TYPE : String := "text/plain"

/-- Models `Request::json` (src/request.rs lines 147-160). Serde serialization is
external; the model takes the serialized body bytes. Sets the body, then
defaults the content type to JSON only when none is set. -/
def Request.json (req : Request) (body_bytes : List Nat) : Request :=
  let req := { req with body := some body_bytes }
  if req.content_type = none then
    { req with content_type := some JSON_CONTENT_TYPE }
  else req

/-- Models `Request::bytes` (src/request.rs lines 182-187): content type untouched. -/
def Request.bytes (req : Request) (body_bytes : List Nat) : Request :=
  { req with body := some body_bytes }

/-- Models `Request::text` (src/request.rs lines 165-177). `Display` formatting is
external; the model takes the formatted text. -/
def Request.text (req : Request) (raw_text : String) : Request :=
  let req :=
    if req.content_type = none then
      { req with content_type := some TEXT_CONTENT_TYPE }
    else req
  req.bytes (strToBytes raw_text)

/-- Models `Request::content_type` (src/request.rs lines 190-193); named
`with_content_type` here because the field keeps the source name. -/
def Request.with_content_type (req : Request) (content_type : String) : Request :=
  { req with content_type := some content_type }

/-- Models `Request::with_header` equivalent: the `headers` vec is append-only.
Modelled from the spec: `with_header(name, value)` appends to the header
list (the builder itself is not in src/request.rs, only the `headers` field
and its use in `send`). -/
def Request.with_header (req : Request) (name value : String) : Request :=
  { req with headers := req.headers ++ [(name, value)] }

/-- Models `build_content_type_header` (src/request.rs lines 274-279). -/
def build_content_type_header (content_type : String) :
    Except KantanError (String × String) := do
  let v ← headerValueFromStr content_type
  pure ("content-type", v)

/-- The cookie loop of `Request::send` (src/request.rs lines 215-220): one
`Cookie` header per cookie, in jar iteration order, each value built by
`HeaderValue::from_str` from `Cookie::to_string` (fallible, `?`). -/
def cookieHeadersOf (jar : CookieJar) :
    Except KantanError (List (String × String)) :=
  match jar with
  | [] => .ok []
  | c :: rest => do
    let v ← headerValueFromStr (cookieToString c)
    let more ← cookieHeadersOf rest
    pure (("cookie", v) :: more)

/-- The header-assembly phase of `Request::send` (src/request.rs lines
208-225): explicit headers, then the `Content-Type` header if a content
type is set, then the cookie headers. Header names are the lowercase
canonical forms of the `header::CONTENT_TYPE` / `header::COOKIE`
constants. -/
def Request.assembleHeaders (req : Request) :
    Except KantanError (List (String × String)) := do
  let ctPart ←
    match req.content_type with
    | some ct => do
        let h ← build_content_type_header ct
        pure [h]
    | none => pure ([] : List (String × String))
  let cookiePart ← cookieHeadersOf req.cookies
  pure (req.headers ++ ctPart ++ cookiePart)

/-- The `Content-Type` header list an assembled request carries: one entry
when a content type is set, none otherwise. -/
def ctHeadersOf : Option String → List (String × String)
  | some ct => [("content-type", ct)]
  | none => []

/-- The loop body of `InnerServer::add_cookies_by_header`
(src/server/inner_server.rs lines 81-90), acting on the jar: for each raw
header, `to_str().unwrap()` (panic when the bytes are not visible ASCII),
then `Cookie::parse(...)?` (recoverable error, loop stops, prior additions
kept), then `jar.add`. -/
def addCookiesLoop (jar : CookieJar) (cookie_headers : List (List Nat)) :
    PanicOr (CookieJar × Except KantanError Unit) :=
  match cookie_headers with
  | [] => .ok (jar, .ok ())
  | h :: rest =>
    match headerValueToStr h with
    | none => .panicked "Reading cookie header for storing in the `Server`"
    | some s =>
      match cookieParse s with
      | .error e => .ok (jar, .error e)
      | .ok c => addCookiesLoop (jar.add c) rest

/-- Models `InnerServer::with_this_mut` with a healthy (non-poisoned) lock: run the
closure on the locked state. -/
def InnerServer.with_this_mut (server : InnerServer)
    (some_action : InnerServer → α) : α :=
  some_action server

/-- Models `InnerServer::add_cookies_by_header` (src/server/inner_server.rs lines
74-94): under the lock, merge each parsed cookie into the jar. Returns the
resulting server state together with the surfaced result; mutations made
before a parse failure persist (the Rust loop mutates `this.cookies` in
place). -/
def InnerServer.add_cookies_by_header (server : InnerServer)
    (cookie_headers : List (List Nat)) :
    PanicOr (InnerServer × Except KantanError Unit) :=
  server.with_this_mut (fun this =>
    match addCookiesLoop this.cookies cookie_headers with
    | .panicked m => .panicked m
    | .ok (jar, r) => .ok ({ this with cookies := jar }, r))

/-- Models `InnerServer::test_request_config` (src/server/inner_server.rs lines
122-127). -/
def InnerServer.test_request_config (server : InnerServer) : RequestConfig :=
  { save_cookies := server.save_cookies
    content_type := server.default_content_type }

/-- Models `InnerServer::send` (src/server/inner_server.rs lines 129-140): build a
request from the server defaults. -/
def InnerServer.send (server : InnerServer) (method path : String) : Request :=
  Request.new server (server.test_request_config) ⟨method, path⟩

/-- Response data relevant to the model: status and the raw `Set-Cookie`
header values (bytes, in header order). -/
structure HttpResponse where
  status : Nat
  set_cookie_headers : List (List Nat)
deriving Repr, DecidableEq

/-- What the external hyper transport did: connection failure, or a
response. -/
inductive TransportOutcome where
  | failure (msg : String)
  | success (response : HttpResponse)
deriving Repr, DecidableEq

/-- Models `TestResponse` as constructed at the end of `Request::send`: the request
path (for diagnostics) plus the response parts. -/
structure TestResponse where
  request_path : String
  status : Nat
deriving Repr, DecidableEq

/-- Models `Request::send` (src/request.rs lines 199-249). The transport call is
external, so its outcome is a parameter. Steps: assemble headers (fallible);
dispatch (fallible); if `is_saving_cookies`, merge the response
`Set-Cookie` headers into the shared state (possibly panicking or failing,
with no rollback); return the `TestResponse` and the final shared state. -/
def Request.send (req : Request) (server : InnerServer)
    (outcome : TransportOutcome) :
    PanicOr (Except KantanError TestResponse × InnerServer) :=
  match req.assembleHeaders with
  | .error e => .ok (.error e, server)
  | .ok _ =>
    match outcome with
    | .failure msg => .ok (.error (.transportError msg), server)
    | .success resp =>
      if req.is_saving_cookies then
        match server.add_cookies_by_header resp.set_cookie_headers with
        | .panicked m => .panicked m
        | .ok (server_after, .error e) => .ok (.error e, server_after)
        | .ok (server_after, .ok ()) =>
            .ok (.ok ⟨req.details.path, resp.status⟩, server_after)
      else
        .ok (.ok ⟨req.details.path, resp.status⟩, server)

/-- Models `Request::send_or_panic` (src/request.rs lines 195-197):
`self.send().await.expect("Sending request failed")`. A panic from inside
`send` keeps its own message. -/
def Request.send_or_panic (req : Request) (server : InnerServer)
    (outcome : TransportOutcome) : PanicOr (TestResponse × InnerServer) :=
  match req.send server outcome with
  | .panicked m => .panicked m
  | .ok (.error _, _) => .panicked "Sending request failed"
  | .ok (.ok r, server_after) => .ok (r, server_after)

/-- Models `IntoFuture::into_future` (src/request.rs lines 252-260): awaiting the
request runs `send_or_panic`. -/
def Request.into_future (req : Request) (server : InnerServer)
    (outcome : TransportOutcome) : PanicOr (TestResponse × InnerServer) :=
  req.send_or_panic server outcome

/-- Is a byte a UTF-8 continuation byte (`0x80..=0xBF`)? -/
def utf8Cont (b : Nat) : Bool :=
  0x80 ≤ b && b ≤ 0xBF

/-- One step of the standard UTF-8 acceptance automaton (RFC 3629 table:
no overlongs, no surrogates, max U+10FFFF). State 0 expects a sequence
start; states 1-7 encode how many continuation bytes remain and the
restricted range of the next one. -/
def utf8Step (state b : Nat) : Option Nat :=
  if state = 0 then
    if b ≤ 0x7F then some 0
    else if b < 0xC2 then none
    else if b ≤ 0xDF then some 1
    else if b = 0xE0 then some 2
    else if b = 0xED then some 3
    else if b ≤ 0xEF then some 4
    else if b = 0xF0 then some 5
    else if b ≤ 0xF3 then some 6
    else if b = 0xF4 then some 7
    else none
  else if state = 1 then if utf8Cont b then some 0 else none
  else if state = 2 then if 0xA0 ≤ b && b ≤ 0xBF then some 1 else none
  else if state = 3 then if 0x80 ≤ b && b ≤ 0x9F then some 1 else none
  else if state = 4 then if utf8Cont b then some 1 else none
  else if state = 5 then if 0x90 ≤ b && b ≤ 0xBF then some 4 else none
  else if state = 6 then if utf8Cont b then some 4 else none
  else if state = 7 then if 0x80 ≤ b && b ≤ 0x8F then some 4 else none
  else none

/-- Run the UTF-8 automaton over the bytes; accept only in state 0. -/
def isUtf8Aux (state : Nat) : List Nat → Bool
  | [] => state = 0
  | b :: rest =>
    match utf8Step state b with
    | some s2 => isUtf8Aux s2 rest
    | none => false

/-- UTF-8 well-formedness of a byte sequence, modelling `str` validity for
incoming header bytes. -/
def isUtf8 (l : List Nat) : Bool :=
  isUtf8Aux 0 l

/-- The combined state of one request lifecycle: the shared server state and
one in-flight request holding a handle to it (the `Arc<Mutex<_>>` made
explicit). -/
structure World where
  server : InnerServer
  req : Request
deriving Repr, DecidableEq

/-- Models `Request::add_cookie` at world level: the Rust method takes only
`self`, so the shared state component is untouched. -/
def World.add_cookie (w : World) (c : RustCookie) : World :=
  { w with req := w.req.add_cookie c }

/-- Models `Request::clear_cookies` at world level. -/
def World.clear_cookies (w : World) : World :=
  { w with req := w.req.clear_cookies }

/-- Concrete server state used to instantiate theorems: empty jar, cookie
saving on, no default content type. -/
def srvEmpty : InnerServer :=
  { server_address := "127.0.0.1:3000"
    cookies := []
    save_cookies := true
    default_content_type := none }

/-- A plain GET request against `srvEmpty`: no body, headers, cookies or
content type; cookie saving on. -/
def reqPlain : Request :=
  Request.new srvEmpty ⟨none, true⟩ ⟨"GET", "/user"⟩

/-- The request `reqPlain` with cookie saving disabled. -/
def reqNoSave : Request :=
  reqPlain.do_not_save_cookies

/-- A request carrying one explicit header and two local cookies. -/
def reqTwoCookies : Request :=
  (((reqPlain.with_header "x-explicit" "e").add_cookie ⟨"a", "1"⟩).add_cookie
    ⟨"b", "2"⟩)

end Kantan

deriving instance DecidableEq for Except

namespace Kantan

/-- C2: the three-case path-joining rule of `build_request_path`: empty
sub-path appends nothing; a sub-path with a leading slash is appended
unchanged; any other sub-path is appended after a `/`. -/
theorem build_request_path_three_cases (address p : String) :
    (p = "" → build_request_path address p = "http://" ++ address) ∧
    (strStartsWith p "/" = true →
      build_request_path address p = "http://" ++ address ++ p) ∧
    (p ≠ "" → strStartsWith p "/" = false →
      build_request_path address p = "http://" ++ address ++ "/" ++ p) := by
  refine ⟨fun h => ?_, fun h => ?_, fun h1 h2 => ?_⟩
  · simp [build_request_path, h]
  · have hne : p ≠ "" := by
      intro he
      rw [he] at h
      exact absurd h (by decide)
    simp [build_request_path, hne, h]
  · simp [build_request_path, h1, h2]

/-- C2 witness: the three cases at concrete inputs. -/
theorem build_request_path_three_cases_witness :
    build_request_path "127.0.0.1:3000" "" = "http://127.0.0.1:3000" ∧
    build_request_path "127.0.0.1:3000" "/user" = "http://127.0.0.1:3000/user" ∧
    build_request_path "127.0.0.1:3000" "user" = "http://127.0.0.1:3000/user" :=
  ⟨(build_request_path_three_cases "127.0.0.1:3000" "").1 rfl,
   (build_request_path_three_cases "127.0.0.1:3000" "/user").2.1 (by decide),
   (build_request_path_three_cases "127.0.0.1:3000" "user").2.2
     (by decide) (by decide)⟩

/-- C10: every URL produced by `build_request_path` begins with the literal
scheme `http://`; no other scheme is ever produced. -/
theorem build_request_path_scheme (root_path sub_path : String) :
    ∃ rest, build_request_path root_path sub_path = "http://" ++ rest := by
  unfold build_request_path
  split
  · exact ⟨root_path, rfl⟩
  · split
    · exact ⟨root_path ++ sub_path, by rw [String.append_assoc]⟩
    · exact ⟨root_path ++ ("/" ++ sub_path), by
        rw [String.append_assoc, String.append_assoc]⟩

/-- Helper: when every cookie of the jar serializes to a legal header value,
the cookie loop succeeds and yields one `Cookie` header per cookie, in jar
order. -/
theorem cookieHeadersOf_eq (jar : CookieJar)
    (h : ∀ c ∈ jar, validHeaderStr (cookieToString c) = true) :
    cookieHeadersOf jar =
      .ok (jar.map fun c => ("cookie", cookieToString c)) := by
  induction jar with
  | nil => rfl
  | cons c rest ih =>
    have hc : validHeaderStr (cookieToString c) = true :=
      h c (List.mem_cons_self _ _)
    have hrest := ih (fun x hx => h x (List.mem_cons_of_mem _ hx))
    simp [cookieHeadersOf, headerValueFromStr, hc, hrest, Bind.bind, Except.bind, Pure.pure, Except.pure]

/-- Helper: the assembled wire-header list, when the content type (if any)
and every cookie serialization are legal header values. -/
theorem assembleHeaders_spec (req : Request)
    (hct : ∀ ct, req.content_type = some ct → validHeaderStr ct = true)
    (hck : ∀ c ∈ req.cookies, validHeaderStr (cookieToString c) = true) :
    req.assembleHeaders =
      .ok (req.headers ++ ctHeadersOf req.content_type
        ++ req.cookies.map fun c => ("cookie", cookieToString c)) := by
  cases hc : req.content_type with
  | none =>
    simp [Request.assembleHeaders, hc, ctHeadersOf, cookieHeadersOf_eq _ hck,
      Bind.bind, Except.bind, Pure.pure, Except.pure]
  | some ct =>
    have hv : validHeaderStr ct = true := hct ct hc
    simp [Request.assembleHeaders, hc, ctHeadersOf, build_content_type_header,
      headerValueFromStr, hv, cookieHeadersOf_eq _ hck, Bind.bind, Except.bind, Pure.pure, Except.pure]

/-- Helper: an added cookie is in the jar. -/
theorem mem_jar_add (jar : CookieJar) (c : RustCookie) : c ∈ jar.add c := by
  simp [CookieJar.add]

/-- C1 counterexample: for a request with explicit header `x-explicit: e`
and two local cookies `a=1`, `b=2`, `Request::send` assembles TWO `Cookie`
headers (one per cookie), not the single joined header
`Cookie: a=1; b=2` the claim describes. -/
theorem cookie_headers_not_joined :
    reqTwoCookies.assembleHeaders =
      .ok [("x-explicit", "e"), ("cookie", "a=1"), ("cookie", "b=2")] ∧
    reqTwoCookies.assembleHeaders ≠
      .ok [("x-explicit", "e"), ("cookie", "a=1; b=2")] := by
  exact ⟨by decide, by decide⟩

/-- C1 (amended): when a Request is sent, the wire-level header list is
every explicitly added header first (in insertion order), then, if a
content type is set, exactly one `Content-Type` header, then one `Cookie`
header per cookie in the local snapshot of the request, in jar iteration
order, each valued by the `name=value` serialization of that cookie (provided all those
values are legal header encodings; otherwise the send fails). -/
theorem headers_assembly_order (req : Request)
    (hct : ∀ ct, req.content_type = some ct → validHeaderStr ct = true)
    (hck : ∀ c ∈ req.cookies, validHeaderStr (cookieToString c) = true) :
    req.assembleHeaders =
      .ok (req.headers ++ ctHeadersOf req.content_type
        ++ req.cookies.map fun c => ("cookie", cookieToString c)) :=
  assembleHeaders_spec req hct hck

/-- C1 witness: the amended assembly rule at a concrete request. -/
theorem headers_assembly_order_witness :
    (reqTwoCookies.with_content_type "text/plain").assembleHeaders =
      .ok ([("x-explicit", "e")] ++ [("content-type", "text/plain")]
        ++ [("cookie", "a=1"), ("cookie", "b=2")]) := by
  have h := headers_assembly_order (reqTwoCookies.with_content_type "text/plain")
    (by decide) (by decide)
  exact h.trans (by decide)

/-- C5: the explicit content-type builder overrides the JSON default
(`json` then `content_type "x"` gives `x`), while `json` alone on a request
with no content type set yields `application/json`. -/
theorem content_type_override_wins (req : Request) (b : List Nat) (x : String) :
    ((req.json b).with_content_type x).content_type = some x ∧
    (req.content_type = none →
      (req.json b).content_type = some "application/json") := by
  constructor
  · simp [Request.with_content_type]
  · intro h
    simp [Request.json, Request.with_content_type, JSON_CONTENT_TYPE, h]

/-- C5 witness: the override and the JSON default at a concrete request. -/
theorem content_type_override_wins_witness :
    ((reqPlain.json (strToBytes "null")).with_content_type "x").content_type
        = some "x" ∧
    (reqPlain.json (strToBytes "null")).content_type
        = some "application/json" :=
  ⟨(content_type_override_wins reqPlain (strToBytes "null") "x").1,
   (content_type_override_wins reqPlain (strToBytes "null") "x").2 (by decide)⟩

/-- C7: the per-request cookie builders mutate only the local
cookie snapshot (`add_cookie` upserts into it, `clear_cookies` empties it,
and neither changes any other request field), and at world level — the pair
of shared server state and request — they leave the shared server state,
and in particular its jar, unchanged. Builders perform no I/O; the shared
jar is touched only inside `send`, after the response arrives and only when
saving is enabled. -/
theorem builder_cookie_ops_local_only (req : Request) (c : RustCookie)
    (w : World) :
    req.add_cookie c = { req with cookies := req.cookies.add c } ∧
    req.clear_cookies = { req with cookies := [] } ∧
    (w.add_cookie c).server = w.server ∧
    w.clear_cookies.server = w.server :=
  ⟨rfl, rfl, rfl, rfl⟩

/-- C6: a request whose save-cookies flag is false at send time leaves the
shared server state (in particular its cookie jar) unchanged, whatever the
transport outcome and however many `Set-Cookie` headers the response
carries. -/
theorem no_save_leaves_jar_unchanged (req : Request) (server : InnerServer)
    (outcome : TransportOutcome) (h : req.is_saving_cookies = false) :
    ∃ res, req.send server outcome = .ok (res, server) := by
  unfold Request.send
  cases hA : req.assembleHeaders with
  | error e => exact ⟨.error e, rfl⟩
  | ok hs =>
    cases outcome with
    | failure msg => exact ⟨.error (.transportError msg), rfl⟩
    | success resp =>
      exact ⟨.ok ⟨req.details.path, resp.status⟩, by simp [h]⟩

/-- C6 witness: a non-saving request, against a response carrying two
`Set-Cookie` headers, returns the server state unchanged. -/
theorem no_save_leaves_jar_unchanged_witness :
    ∃ res, reqNoSave.send srvEmpty
      (.success ⟨200, [strToBytes "a=1", strToBytes "b=2"]⟩)
      = .ok (res, srvEmpty) :=
  no_save_leaves_jar_unchanged reqNoSave srvEmpty
    (.success ⟨200, [strToBytes "a=1", strToBytes "b=2"]⟩) (by decide)

/-- C8: awaiting a request (its `IntoFuture` instance) is exactly the
panicking send: any send failure becomes a panic rather than a recoverable
error, while the fallible `send` path returns those failures as
inspectable `Err` results. -/
theorem await_panics_on_failure (req : Request) (server : InnerServer)
    (outcome : TransportOutcome) :
    req.into_future server outcome = req.send_or_panic server outcome ∧
    (∀ e server_after,
      req.send server outcome = .ok (.error e, server_after) →
      req.into_future server outcome = .panicked "Sending request failed") ∧
    (∀ m, req.send server outcome = .panicked m →
      req.into_future server outcome = .panicked m) ∧
    (∀ r server_after,
      req.send server outcome = .ok (.ok r, server_after) →
      req.into_future server outcome = .ok (r, server_after)) := by
  refine ⟨rfl, fun e sa h => ?_, fun m h => ?_, fun r sa h => ?_⟩ <;>
    simp only [Request.into_future, Request.send_or_panic, h]

/-- C8 witness: awaiting a request whose transport call fails aborts with
the `expect` message, while `send` surfaces the same failure as an `Err`. -/
theorem await_panics_on_failure_witness :
    reqPlain.send srvEmpty (.failure "conn refused")
      = .ok (.error (.transportError "conn refused"), srvEmpty) ∧
    reqPlain.into_future srvEmpty (.failure "conn refused")
      = .panicked "Sending request failed" :=
  ⟨by decide,
   (await_panics_on_failure reqPlain srvEmpty (.failure "conn refused")).2.1
     (.transportError "conn refused") srvEmpty (by decide)⟩

/-- Helper: an all-ASCII byte sequence is valid UTF-8. -/
theorem isUtf8_of_ascii (l : List Nat) (h : ∀ b ∈ l, b ≤ 127) :
    isUtf8 l = true := by
  induction l with
  | nil => rfl
  | cons b rest ih =>
    have hb : b ≤ 127 := h b (List.mem_cons_self _ _)
    have hr := ih (fun x hx => h x (List.mem_cons_of_mem _ hx))
    have hstep : utf8Step 0 b = some 0 := by simp [utf8Step, hb]
    simp only [isUtf8, isUtf8Aux, hstep] at hr ⊢
    exact hr

/-- Helper: `HeaderValue::to_str` fails on any byte sequence that is not
valid UTF-8 (such bytes cannot all be visible ASCII). -/
theorem headerValueToStr_eq_none_of_not_utf8 (bs : List Nat)
    (h : isUtf8 bs = false) : headerValueToStr bs = none := by
  have hall : bs.all isVisAscii = false := by
    cases hv : bs.all isVisAscii with
    | false => rfl
    | true =>
      exfalso
      have hle : ∀ b ∈ bs, b ≤ 127 := by
        intro b hb
        have hvb := (List.all_eq_true.mp hv) b hb
        simp [isVisAscii] at hvb
        rcases hvb with ⟨_, hlt⟩ | h9
        · omega
        · omega
      rw [isUtf8_of_ascii bs hle] at h
      exact Bool.noConfusion h
  simp [headerValueToStr, hall]

/-- C9: during the cookie merge, a `Set-Cookie` header value that is not
valid UTF-8 makes the `to_str().unwrap()` inside the locked
`with_this_mut` closure abort (panic) unconditionally, instead of being
returned as a recoverable cookie-parse error. -/
theorem non_utf8_cookie_header_panics (server : InnerServer) (hv : List Nat)
    (rest : List (List Nat)) (h : isUtf8 hv = false) :
    server.add_cookies_by_header (hv :: rest)
      = .panicked "Reading cookie header for storing in the `Server`" := by
  have hn := headerValueToStr_eq_none_of_not_utf8 hv h
  simp [InnerServer.add_cookies_by_header, InnerServer.with_this_mut,
    addCookiesLoop, hn]

/-- C9 witness: the byte `0xFF` is not UTF-8 and makes the merge panic. -/
theorem non_utf8_cookie_header_panics_witness :
    isUtf8 [255] = false ∧
    srvEmpty.add_cookies_by_header [[255]]
      = .panicked "Reading cookie header for storing in the `Server`" :=
  ⟨by decide, non_utf8_cookie_header_panics srvEmpty [255] [] (by decide)⟩

/-- Helper for C4: if the merge loop consumes `pre` successfully and the
next header stringifies but fails to parse, the loop over
`pre ++ h :: rest` returns that parse error with the jar as merged from
`pre`, never touching `rest`. -/
theorem addCookiesLoop_stops (pre : List (List Nat)) :
    ∀ jar jar1, addCookiesLoop jar pre = .ok (jar1, .ok ()) →
    ∀ (h : List Nat) rest s e, headerValueToStr h = some s →
    cookieParse s = .error e →
    addCookiesLoop jar (pre ++ h :: rest) = .ok (jar1, .error e) := by
  induction pre with
  | nil =>
    intro jar jar1 hpre h rest s e hstr hparse
    simp only [addCookiesLoop, PanicOr.ok.injEq, Prod.mk.injEq, and_true]
      at hpre
    subst hpre
    simp only [List.nil_append, addCookiesLoop, hstr, hparse]
  | cons p ps ih =>
    intro jar jar1 hpre h rest s e hstr hparse
    simp only [addCookiesLoop] at hpre
    simp only [List.cons_append, addCookiesLoop]
    cases hp : headerValueToStr p with
    | none => simp [hp] at hpre
    | some sp =>
      cases hcp : cookieParse sp with
      | error e' => simp [hp, hcp] at hpre
      | ok c =>
        simp only [hp, hcp] at hpre ⊢
        exact ih (jar.add c) jar1 hpre h rest s e hstr hparse

/-- C4: merging a sequence of `Set-Cookie` headers where some header fails
to parse returns that error, stops at the first failing header (later
headers are ignored), and keeps every cookie merged from the earlier
headers in the shared jar — no rollback. -/
theorem cookie_merge_stops_at_first_error (server server1 : InnerServer)
    (pre : List (List Nat)) (h : List Nat) (rest : List (List Nat))
    (s : String) (e : KantanError)
    (hpre : server.add_cookies_by_header pre = .ok (server1, .ok ()))
    (hstr : headerValueToStr h = some s)
    (hparse : cookieParse s = .error e) :
    server.add_cookies_by_header (pre ++ h :: rest)
      = .ok (server1, .error e) := by
  unfold InnerServer.add_cookies_by_header InnerServer.with_this_mut
    at hpre ⊢
  cases hl : addCookiesLoop server.cookies pre with
  | panicked m => simp [hl] at hpre
  | ok pr =>
    obtain ⟨jar, r⟩ := pr
    simp only [hl, PanicOr.ok.injEq, Prod.mk.injEq] at hpre
    obtain ⟨hsrv, hr⟩ := hpre
    subst hr
    simp only [addCookiesLoop_stops pre server.cookies jar hl h rest s e
      hstr hparse, hsrv]

/-- C4 witness: merging `a=1`, then the unparsable `bad`, then `b=2`
surfaces `MissingPair`, never reads `b=2`, and keeps `a=1` merged. -/
theorem cookie_merge_stops_at_first_error_witness :
    srvEmpty.add_cookies_by_header
        ([strToBytes "a=1"] ++ strToBytes "bad" :: [strToBytes "b=2"])
      = .ok (⟨"127.0.0.1:3000", [⟨"a", "1"⟩], true, none⟩,
          .error .missingPair) :=
  cookie_merge_stops_at_first_error srvEmpty
    ⟨"127.0.0.1:3000", [⟨"a", "1"⟩], true, none⟩
    [strToBytes "a=1"] (strToBytes "bad") [strToBytes "b=2"] "bad"
    .missingPair (by decide) (by decide) (by decide)

/-- C3: after a response carrying `Set-Cookie: a=1` is processed by a
cookie-saving request that sends successfully, any request subsequently
constructed from the resulting shared state assembles an outgoing header
`Cookie: a=1` (provided the cookies of the jar and the configured content type
are legal header values, without which nothing is sent at all). -/
theorem cookie_roundtrip (server server_after : InnerServer)
    (req1 : Request) (resp : HttpResponse) (config : RequestConfig)
    (details : RequestDetails) (r : TestResponse)
    (hsave : req1.is_saving_cookies = true)
    (hresp : resp.set_cookie_headers = [strToBytes "a=1"])
    (hsend : req1.send server (.success resp) = .ok (.ok r, server_after))
    (hct : ∀ ct, config.content_type = some ct → validHeaderStr ct = true)
    (hjar : ∀ c ∈ server_after.cookies,
      validHeaderStr (cookieToString c) = true) :
    ∃ hs, (Request.new server_after config details).assembleHeaders
        = .ok hs ∧ ("cookie", "a=1") ∈ hs := by
  have h1 : headerValueToStr (strToBytes "a=1") = some "a=1" := by decide
  have h2 : cookieParse "a=1" = Except.ok ⟨"a", "1"⟩ := by decide
  have hmem : (⟨"a", "1"⟩ : RustCookie) ∈ server_after.cookies := by
    unfold Request.send at hsend
    cases hA : req1.assembleHeaders with
    | error e => simp [hA] at hsend
    | ok hs0 =>
      simp only [hA, hresp, hsave, if_true,
        InnerServer.add_cookies_by_header, InnerServer.with_this_mut,
        addCookiesLoop, h1, h2, PanicOr.ok.injEq, Prod.mk.injEq] at hsend
      rw [← hsend.2]
      exact mem_jar_add server.cookies ⟨"a", "1"⟩
  refine ⟨_, assembleHeaders_spec (Request.new server_after config details)
    hct hjar, ?_⟩
  have hts : cookieToString ⟨"a", "1"⟩ = "a=1" := by decide
  have hthis : (("cookie", cookieToString (⟨"a", "1"⟩ : RustCookie))
        : String × String)
      ∈ (Request.new server_after config details).cookies.map
        (fun c => ("cookie", cookieToString c)) :=
    List.mem_map_of_mem _ hmem
  rw [hts] at hthis
  exact List.mem_append_right _ hthis

/-- C3 witness: the round trip at concrete states: an empty jar, a plain
cookie-saving GET whose response sets `a=1`, then a fresh request. -/
theorem cookie_roundtrip_witness :
    ∃ hs, (Request.new ⟨"127.0.0.1:3000", [⟨"a", "1"⟩], true, none⟩
        ⟨none, true⟩ ⟨"GET", "/profile"⟩).assembleHeaders
      = .ok hs ∧ ("cookie", "a=1") ∈ hs :=
  cookie_roundtrip srvEmpty ⟨"127.0.0.1:3000", [⟨"a", "1"⟩], true, none⟩
    reqPlain ⟨200, [strToBytes "a=1"]⟩ ⟨none, true⟩ ⟨"GET", "/profile"⟩
    ⟨"/user", 200⟩ (by decide) rfl (by decide)
    (fun ct hc => nomatch hc) (by decide)

end Kantan
